import Mathlib

/-!
Verification of the request/response pipeline of `src/backend/agent.py`
(`ScheduleOptimizationAgent`).

Modelling conventions, stated once:

* Calendar dates (rendered by the source as `YYYY-MM-DD` strings via
  `strftime`) are modelled by their absolute day number (a `Nat`), with the
  epoch chosen on a Monday, so that the Python `date.weekday()` value is `d % 7`
  (Monday = 0, ..., Sunday = 6).  The `YYYY-MM-DD` rendering is injective,
  so a dictionary keyed by date strings is modelled by an association list
  keyed by day numbers.
* Python `float` costs and revenue figures are modelled by `ℚ`; no claim in
  this development depends on rounding behaviour.
* Python dictionaries parsed from the model completion are modelled by a
  small JSON value type; structural validation by `pydantic` of the
  `ScheduleOutput` schema is embedded as a parser over that type.  The text
  of error messages produced by the third-party parser is abstracted to a
  fixed description; the wrapper text added by `_parse_response` itself is
  kept verbatim.
* The external LLM call `self.llm.predict(prompt)` is modelled by a
  function `respond : String → Nat → CompletionResult` from the prompt and
  the attempt index to either a decoded payload or a raised exception;
  the attempt index captures client non-determinism across retries.
-/

/-- JSON-like values, the shape of the decoded completion payload. -/
inductive Json where
  | null : Json
  | bool (b : Bool) : Json
  | num (q : ℚ) : Json
  | str (s : String) : Json
  | arr (elems : List Json) : Json
  | obj (fields : List (String × Json)) : Json

/-- Source: `class ScheduledTreatment(BaseModel)` in `agent.py`
(fields `date`, `treatment`, `patient_id`, `cost`).  The `date` string is
modelled by its day number as explained in the header. -/
structure ScheduledTreatment where
  date : Nat
  treatment : String
  patient_id : Int
  cost : ℚ
deriving DecidableEq, Repr, Inhabited

/-- Source: `class ScheduleOutput(BaseModel)` in `agent.py`
(fields `schedule`, `total_revenue`, `revenue_target_met`, `analysis`). -/
structure ScheduleOutput where
  schedule : List ScheduledTreatment
  total_revenue : ℚ
  revenue_target_met : Bool
  analysis : String
deriving DecidableEq, Repr, Inhabited

deriving instance DecidableEq for Except

/-- Field lookup in a JSON object, first match wins (as in a Python dict
decoded from JSON, whose keys are unique anyway). -/
def lookupField : List (String × Json) → String → Option Json
  | [], _ => none
  | (k, v) :: rest, key => if k = key then some v else lookupField rest key

/-- Extract a string. -/
def Json.asStr : Json → Option String
  | .str s => some s
  | _ => none

/-- Extract a number (the `float` fields of the pydantic models). -/
def Json.asNum : Json → Option ℚ
  | .num q => some q
  | _ => none

/-- Extract an integer (the `int` field `patient_id`): an integral number. -/
def Json.asInt : Json → Option Int
  | .num q => if q.den = 1 then some q.num else none
  | _ => none

/-- Extract a day number (the modelled `date` string field): a non-negative
integral number stands for a well-formed `YYYY-MM-DD` string. -/
def Json.asDate : Json → Option Nat
  | .num q => if q.den = 1 ∧ 0 ≤ q.num then some q.num.toNat else none
  | _ => none

/-- Extract a boolean. -/
def Json.asBool : Json → Option Bool
  | .bool b => some b
  | _ => none

/-- Extract an array. -/
def Json.asArr : Json → Option (List Json)
  | .arr elems => some elems
  | _ => none

/-- Extract an object. -/
def Json.asObj : Json → Option (List (String × Json))
  | .obj fields => some fields
  | _ => none

/-- Structural (pydantic-style) validation of one `ScheduledTreatment`
record: every declared field present and of the declared kind.  No domain
condition (sign of `cost`, weekday of `date`, duplication) is checked,
exactly as in the source, whose only validation is the pydantic schema. -/
def parseScheduledTreatment (j : Json) : Option ScheduledTreatment :=
  j.asObj.bind fun o =>
  ((lookupField o "date").bind Json.asDate).bind fun d =>
  ((lookupField o "treatment").bind Json.asStr).bind fun t =>
  ((lookupField o "patient_id").bind Json.asInt).bind fun pid =>
  ((lookupField o "cost").bind Json.asNum).bind fun c =>
  some ⟨d, t, pid, c⟩

/-- Validate every element of the `schedule` array, in order. -/
def parseTreatments : List Json → Option (List ScheduledTreatment)
  | [] => some []
  | j :: js =>
    (parseScheduledTreatment j).bind fun t =>
    (parseTreatments js).bind fun ts =>
    some (t :: ts)

/-- Structural validation of the whole `ScheduleOutput` payload. -/
def parseScheduleOutput (j : Json) : Option ScheduleOutput :=
  j.asObj.bind fun o =>
  ((lookupField o "schedule").bind Json.asArr).bind fun schedJson =>
  (parseTreatments schedJson).bind fun sched =>
  ((lookupField o "total_revenue").bind Json.asNum).bind fun tr =>
  ((lookupField o "revenue_target_met").bind Json.asBool).bind fun rtm =>
  ((lookupField o "analysis").bind Json.asStr).bind fun an =>
  some ⟨sched, tr, rtm, an⟩

/-- Source: `_parse_response` (`agent.py` lines 113-119): run the pydantic
output parser; on success return the parsed output (as a dict), on failure
raise `Exception("Failed to parse the AI response: ...")`. -/
def parse_response (payload : Json) : Except String ScheduleOutput :=
  match parseScheduleOutput payload with
  | some o => Except.ok o
  | none =>
      Except.error
        "Failed to parse the AI response: output did not conform to the ScheduleOutput schema"

/-- The `total_revenue` field as stated by the model in the raw payload. -/
def statedTotal (j : Json) : Option ℚ :=
  j.asObj.bind fun o => (lookupField o "total_revenue").bind Json.asNum

/-- Re-encoding of a `ScheduledTreatment` as the JSON object the validator
accepts; used to show the validator is purely structural. -/
def encodeTreatment (t : ScheduledTreatment) : Json :=
  Json.obj
    [("date", Json.num (t.date : ℚ)),
     ("treatment", Json.str t.treatment),
     ("patient_id", Json.num (t.patient_id : ℚ)),
     ("cost", Json.num t.cost)]

/-- Re-encoding of a full `ScheduleOutput` payload. -/
def encodeOutput (o : ScheduleOutput) : Json :=
  Json.obj
    [("schedule", Json.arr (o.schedule.map encodeTreatment)),
     ("total_revenue", Json.num o.total_revenue),
     ("revenue_target_met", Json.bool o.revenue_target_met),
     ("analysis", Json.str o.analysis)]

/-- An entry of the caller-supplied partial schedule (a Python dict with
keys `date`, `treatment`, `patient_id`, `cost`); only `date` is read by
`_get_available_slots`, the rest by `_format_partial_schedule`. -/
structure Appointment where
  date : Nat
  treatment : String
  patient_id : Int
  cost : ℚ
deriving DecidableEq, Repr

/-- A caller-supplied treatment plan (a Python dict with keys `id`, `name`,
`cost`).  The `id` key may be absent from the dict, hence `Option`. -/
structure TreatmentPlan where
  id : Option Int
  name : String
  cost : ℚ
deriving DecidableEq, Repr

/-- Source: `available_slots[date] -= 1` guarded by
`if date in available_slots` (`agent.py` lines 50-53): the dictionary is
modelled by an association list; a decrement touches exactly the entries
whose key equals the date and is a no-op when the date is not a key. -/
def decrementDate (slots : List (Nat × Int)) (d : Nat) : List (Nat × Int) :=
  slots.map fun p => if p.1 = d then (p.1, p.2 - 1) else p

/-- Source: `_get_available_slots` (`agent.py` lines 42-55).
`date_range` is every weekday `today + x` for `x` in `range(31)`
(`(end_date - today).days + 1 = 31`); every such date starts at 3 slots;
one slot is subtracted per partial-schedule appointment on that date; and
only the entries with a strictly positive count are returned. -/
def _get_available_slots (today : Nat) (partial_schedule : List Appointment) :
    List (Nat × Int) :=
  let date_range := ((List.range 31).map (fun x => today + x)).filter
    (fun d => decide (d % 7 < 5))
  let available_slots : List (Nat × Int) := date_range.map (fun d => (d, (3 : Int)))
  let after_booking := partial_schedule.foldl
    (fun m appt => decrementDate m appt.date) available_slots
  after_booking.filter (fun p => decide ((0 : Int) < p.2))

/-- Source: the per-plan f-string of `_format_treatment_plans`
(`agent.py` line 123).  `plan["id"]` is an unguarded dict lookup: a plan
without the `id` key raises `KeyError`. -/
def formatPlanLine (plan : TreatmentPlan) : Except String String :=
  match plan.id with
  | Option.none => Except.error "KeyError: id"
  | Option.some i =>
      Except.ok ("- Patient ID: " ++ toString i ++ ", Treatment: " ++ plan.name
        ++ ", Cost: $" ++ toString plan.cost)

/-- The list comprehension of `_format_treatment_plans`: formats every plan
in order, failing at the first plan without an `id` key. -/
def formatPlanLines : List TreatmentPlan → Except String (List String)
  | [] => Except.ok []
  | plan :: rest =>
    match formatPlanLine plan, formatPlanLines rest with
    | Except.ok line, Except.ok lines => Except.ok (line :: lines)
    | Except.error e, _ => Except.error e
    | Except.ok _, Except.error e => Except.error e

/-- Source: `_format_treatment_plans` (`agent.py` lines 121-123). -/
def _format_treatment_plans (treatment_plans : List TreatmentPlan) :
    Except String String :=
  Except.map (String.intercalate "\n") (formatPlanLines treatment_plans)

/-- Source: `_format_partial_schedule` (`agent.py` lines 125-127); total. -/
def _format_partial_schedule (partial_schedule : List Appointment) : String :=
  String.intercalate "\n" (partial_schedule.map (fun appt =>
    "- Date: " ++ toString appt.date ++ ", Treatment: " ++ appt.treatment
      ++ ", Patient ID: " ++ toString appt.patient_id
      ++ ", Cost: $" ++ toString appt.cost))

/-- Source: `_format_available_slots` (`agent.py` lines 129-131); total. -/
def _format_available_slots (available_slots : List (Nat × Int)) : String :=
  String.intercalate "\n" (available_slots.map (fun p =>
    "- Date: " ++ toString p.1 ++ ", Available Slots: " ++ toString p.2))

/-- Stand-in for `self.output_parser.get_format_instructions()`: a fixed
schema-description string produced by the langchain library (library code,
outside this repository); its exact text is irrelevant here. -/
def format_instructions : String :=
  "The output must be a JSON instance conforming to the ScheduleOutput schema, with fields schedule, total_revenue, revenue_target_met and analysis."

/-- The template of `_create_prompt` (`agent.py` lines 63-96) after
placeholder substitution by `prompt.format(...)`.  The prose is kept
verbatim up to contraction spelling (apostrophes written out). -/
def templateText (formatted_partial_schedule formatted_available_slots
    formatted_plans : String) (revenue_target : ℚ) : String :=
  "As an AI scheduling assistant specializing in healthcare optimization, your task is to complete a partial schedule for a doctor based on the following parameters:\n\n        Partial Schedule:\n        "
    ++ formatted_partial_schedule
    ++ "\n\n        Available Slots:\n        "
    ++ formatted_available_slots
    ++ "\n\n        Treatment Plans:\n        "
    ++ formatted_plans
    ++ "\n\n        Revenue Target: $"
    ++ toString revenue_target
    ++ "\n\n        Objective:\n        Complete the schedule by filling in the available slots to maximize revenue while meeting or exceeding the revenue target. Consider the following factors:\n        1. Prioritize higher-revenue treatments when possible.\n        2. Ensure a balanced mix of treatments to avoid overbooking any single type.\n        3. If the revenue target cannot be met, get as close as possible.\n        4. Spread out treatments for each patient (identified by patient_id) so they do not have multiple appointments on the same day.\n        5. Respect the maximum of 3 appointments per day.\n        6. Only schedule appointments on weekdays (Monday to Friday).\n        7. Use only the dates provided in the Available Slots section.\n\n        Instructions:\n        1. Analyze the partial schedule, available slots, and treatment plans.\n        2. Fill in the available slots with treatments from the treatment plans.\n        3. Ensure that no patient has more than one appointment per day.\n        4. Calculate the total revenue for the complete schedule.\n        5. Determine if the revenue target is met.\n\n        "
    ++ format_instructions
    ++ "\n\n        Remember, you are an AI assistant focused on optimizing healthcare schedules. Provide your best solution based on the given constraints and objectives.\n        "

/-- Source: `_create_prompt` (`agent.py` lines 57-106).  The only fallible
step is formatting the treatment plans (`plan["id"]` may raise); the other
formatters and the template substitution are total. -/
def _create_prompt (partial_schedule : List Appointment)
    (treatment_plans : List TreatmentPlan) (revenue_target : ℚ)
    (available_slots : List (Nat × Int)) : Except String String :=
  match _format_treatment_plans treatment_plans with
  | Except.error e => Except.error e
  | Except.ok formatted_plans =>
      Except.ok (templateText (_format_partial_schedule partial_schedule)
        (_format_available_slots available_slots) formatted_plans revenue_target)

/-- Behaviour of one `self._get_claude_response(prompt)` call: either the
returned text (already decoded to its JSON payload, `success`) or a raised
exception of any kind (`failure` — network, rate limit, auth, ...; the
source code never distinguishes them). -/
inductive CompletionResult where
  | success (payload : Json) : CompletionResult
  | failure (msg : String) : CompletionResult

/-- True when the modelled client call raises. -/
def CompletionResult.isFailure : CompletionResult → Bool
  | .failure _ => true
  | .success _ => false

/-- The body of the `try` block (`agent.py` lines 35-36): call the model,
then parse; an exception from either step lands in the same handler. -/
def attemptStep (r : CompletionResult) : Except String ScheduleOutput :=
  match r with
  | .failure msg => Except.error msg
  | .success payload => parse_response payload

/-- What an `optimize_schedule` call can come to:
`output` a parsed dict, `errorDict` the `{"error": ...}` dict,
`none` Python `None` (the loop body never ran), and `raised` an exception
propagating out of the pre-loop code uncaught. -/
inductive AgentOutcome where
  | output (o : ScheduleOutput) : AgentOutcome
  | errorDict (msg : String) : AgentOutcome
  | none : AgentOutcome
  | raised (msg : String) : AgentOutcome
deriving DecidableEq, Repr

/-- True for the `{"error": ...}` outcome. -/
def AgentOutcome.isErrorDict : AgentOutcome → Bool
  | .errorDict _ => true
  | _ => false

/-- True for a successfully parsed result returned to the caller. -/
def AgentOutcome.isOutput : AgentOutcome → Bool
  | .output _ => true
  | _ => false

/-- Source: the `for attempt in range(self.max_retries)` loop of
`optimize_schedule` (`agent.py` lines 33-40), embedded with an explicit
fuel argument: `fuel` is the number of iterations still to run, so the
loop is entered with `attempt = 0` and `fuel = maxRetries.toNat`
(`range(n)` over a Python int has `max(n, 0)` elements) and maintains
`attempt + fuel = maxRetries.toNat`.  Besides the outcome, the list of
prompts passed to the completion client is returned, one per call, in
call order.  Falling out of the loop is Python `None`. -/
def optimizeLoop (respond : String → Nat → CompletionResult) (prompt : String)
    (maxRetries : Int) : Nat → Nat → AgentOutcome × List String
  | _, 0 => (AgentOutcome.none, [])
  | attempt, fuel + 1 =>
    match attemptStep (respond prompt attempt) with
    | Except.ok o => (AgentOutcome.output o, [prompt])
    | Except.error e =>
      if (attempt : Int) = maxRetries - 1 then
        (AgentOutcome.errorDict ("Failed to parse the AI response after "
          ++ toString maxRetries ++ " attempts: " ++ e), [prompt])
      else
        let r := optimizeLoop respond prompt maxRetries (attempt + 1) fuel
        (r.1, prompt :: r.2)

/-- Source: `optimize_schedule` (`agent.py` lines 28-40): compute the
available slots, build the prompt once, then run the retry loop.  An
exception raised while building the prompt happens outside the `try` and
propagates to the caller uncaught (`raised`). -/
def optimize_schedule (respond : String → Nat → CompletionResult)
    (today : Nat) (partial_schedule : List Appointment)
    (treatment_plans : List TreatmentPlan) (revenue_target : ℚ)
    (maxRetries : Int) : AgentOutcome × List String :=
  let available_slots := _get_available_slots today partial_schedule
  match _create_prompt partial_schedule treatment_plans revenue_target
      available_slots with
  | Except.error e => (AgentOutcome.raised e, [])
  | Except.ok prompt => optimizeLoop respond prompt maxRetries 0 maxRetries.toNat

/-- A well-formed model reply: one scheduled treatment, consistent total. -/
def goodOut : ScheduleOutput :=
  ⟨[⟨2, "Dental Cleaning", 7, 150⟩], 150, false, "filled one slot"⟩

/-- The payload of the well-formed reply. -/
def goodPayload : Json := encodeOutput goodOut

/-- A client that answers every call with the well-formed reply. -/
def respondGood : String → Nat → CompletionResult :=
  fun _ _ => CompletionResult.success goodPayload

/-- A completion with no structured payload at all: parsing always fails. -/
def junkPayload : Json := Json.str "I could not produce a schedule."

/-- A client whose completion text is unparsable on every attempt. -/
def respondJunk : String → Nat → CompletionResult :=
  fun _ _ => CompletionResult.success junkPayload

/-- A client that raises a non-retryable-looking (auth) error on every
call. -/
def respondRaise : String → Nat → CompletionResult :=
  fun _ _ => CompletionResult.failure "FatalError: invalid x-api-key"

/-- A client that raises the auth error on the first call and then answers
the well-formed reply. -/
def respondFatalThenGood : String → Nat → CompletionResult :=
  fun _ n => if n = 0 then CompletionResult.failure "FatalError: invalid x-api-key"
             else CompletionResult.success goodPayload

/-- 120 treatment plans, the population of the chunking claim. -/
def plans120 : List TreatmentPlan :=
  (List.range 120).map (fun k => TreatmentPlan.mk (some (k : Int)) "Dental Cleaning" 100)

/-- A structurally valid model reply whose stated `total_revenue` (999) is
not the sum of its schedule costs (100). -/
def c1Out : ScheduleOutput :=
  ⟨[⟨2, "Dental Cleaning", 7, 100⟩], 999, true, "maximized revenue"⟩

/-- The payload of that reply. -/
def c1Payload : Json := encodeOutput c1Out

/-- A client that always answers the inconsistent-total reply. -/
def respondC1 : String → Nat → CompletionResult :=
  fun _ _ => CompletionResult.success c1Payload

/-- A structurally valid model reply violating three domain invariants at
once: a negative cost, a weekend date (day 5 is a Saturday), and two
records with the same (patient_id, date) pair. -/
def c2Out : ScheduleOutput :=
  ⟨[⟨5, "Dental Implant", 3, -50⟩, ⟨5, "Teeth Whitening", 3, 200⟩],
    150, true, "weekend bargains"⟩

/-- The payload of that reply. -/
def c2Payload : Json := encodeOutput c2Out

/-- Four partial-schedule appointments on the same Monday (day 0): one more
than the per-day capacity of 3. -/
def overbookedPS : List Appointment :=
  [⟨0, "Basic Checkup", 1, 100⟩, ⟨0, "Basic Checkup", 2, 100⟩,
   ⟨0, "Basic Checkup", 3, 100⟩, ⟨0, "Basic Checkup", 4, 100⟩]

/-- A treatment plan whose dict has no `id` key. -/
def noIdPlan : TreatmentPlan := ⟨Option.none, "Basic Checkup", 100⟩

/-- The call trace of the retry loop never exceeds the remaining fuel. -/
lemma optimizeLoop_length_le (respond : String → Nat → CompletionResult)
    (prompt : String) (m : Int) :
    ∀ (fuel attempt : Nat),
      (optimizeLoop respond prompt m attempt fuel).2.length ≤ fuel := by
  intro fuel
  induction fuel with
  | zero => intro attempt; simp [optimizeLoop]
  | succ k ih =>
    intro attempt
    simp only [optimizeLoop]
    split
    · simp
    · split
      · simp
      · simpa using Nat.succ_le_succ (ih (attempt + 1))

/-- Every call the retry loop makes passes the one prompt it was given. -/
lemma optimizeLoop_calls_eq (respond : String → Nat → CompletionResult)
    (prompt : String) (m : Int) :
    ∀ (fuel attempt : Nat) (c : String),
      c ∈ (optimizeLoop respond prompt m attempt fuel).2 → c = prompt := by
  intro fuel
  induction fuel with
  | zero => intro attempt c hc; simp [optimizeLoop] at hc
  | succ k ih =>
    intro attempt c hc
    simp only [optimizeLoop] at hc
    split at hc
    · simpa using hc
    · split at hc
      · simpa using hc
      · simp only [List.mem_cons] at hc
        rcases hc with h | h
        · exact h
        · exact ih (attempt + 1) c h

/-- When every attempt raises or fails to parse, the loop runs its full
fuel and ends in the error dictionary. -/
lemma optimizeLoop_allError (respond : String → Nat → CompletionResult)
    (prompt : String) (m : Int)
    (h : ∀ n, (attemptStep (respond prompt n)).isOk = false) :
    ∀ (fuel attempt : Nat), attempt + fuel = m.toNat → 1 ≤ fuel →
      (optimizeLoop respond prompt m attempt fuel).1.isErrorDict = true ∧
      (optimizeLoop respond prompt m attempt fuel).2.length = fuel := by
  intro fuel
  induction fuel with
  | zero => intro attempt _ h1; omega
  | succ k ih =>
    intro attempt hsum _
    simp only [optimizeLoop]
    cases hstep : attemptStep (respond prompt attempt) with
    | ok o =>
      have := h attempt
      rw [hstep] at this
      simp [Except.isOk, Except.toBool] at this
    | error e =>
      by_cases hif : (attempt : Int) = m - 1
      · have hk : k = 0 := by omega
        subst hk
        simp [hif, AgentOutcome.isErrorDict]
      · have hk : 1 ≤ k := by omega
        have := ih (attempt + 1) (by omega) hk
        simp only [if_neg hif]
        constructor
        · exact this.1
        · simpa using this.2

/-- Inversion for the `isOk` discriminator of `Except`. -/
lemma except_isOk_iff {ε α : Type} (e : Except ε α) :
    e.isOk = true ↔ ∃ a, e = Except.ok a := by
  cases e <;> simp [Except.isOk, Except.toBool]

/-- When every plan dict carries an `id` key, formatting succeeds. -/
lemma formatPlanLines_ok (plans : List TreatmentPlan)
    (h : ∀ p ∈ plans, (TreatmentPlan.id p).isSome = true) :
    ∃ lines, formatPlanLines plans = Except.ok lines := by
  rw [← except_isOk_iff]
  induction plans with
  | nil => rfl
  | cons a rest ih =>
    have ha := h a (List.mem_cons_self a rest)
    cases hid : a.id with
    | none => rw [hid] at ha; simp at ha
    | some i =>
      obtain ⟨lines, hl⟩ := (except_isOk_iff _).mp
        (ih (fun p hp => h p (List.mem_cons_of_mem a hp)))
      simp [formatPlanLines, formatPlanLine, hid, hl, Except.isOk, Except.toBool]

/-- When every plan dict carries an `id` key, the prompt gets built. -/
lemma create_prompt_ok (ps : List Appointment) (plans : List TreatmentPlan)
    (target : ℚ) (slots : List (Nat × Int))
    (h : ∀ p ∈ plans, (TreatmentPlan.id p).isSome = true) :
    ∃ s, _create_prompt ps plans target slots = Except.ok s := by
  obtain ⟨lines, hl⟩ := formatPlanLines_ok plans h
  refine ⟨templateText (_format_partial_schedule ps) (_format_available_slots slots)
    (String.intercalate "\n" lines) target, ?_⟩
  simp [_create_prompt, _format_treatment_plans, hl, Except.map]

/-- A plan dict without an `id` key makes formatting raise `KeyError`. -/
lemma formatPlanLines_error (plans : List TreatmentPlan)
    (h : ∃ p ∈ plans, TreatmentPlan.id p = Option.none) :
    formatPlanLines plans = Except.error "KeyError: id" := by
  induction plans with
  | nil => simp at h
  | cons a rest ih =>
    obtain ⟨p, hp, hid⟩ := h
    rcases List.mem_cons.mp hp with rfl | hmem
    · simp [formatPlanLines, formatPlanLine, hid]
    · cases hida : a.id with
      | none => simp [formatPlanLines, formatPlanLine, hida]
      | some i => simp [formatPlanLines, formatPlanLine, hida, ih ⟨p, hmem, hid⟩]

/-- Folding the per-appointment decrement over the availability dictionary
subtracts, from every entry, the number of appointments on its date. -/
lemma foldl_decrement_eq (ps : List Appointment) :
    ∀ init : List (Nat × Int),
      ps.foldl (fun m appt => decrementDate m appt.date) init =
        init.map (fun p => (p.1, p.2 - (ps.countP (fun a => a.date == p.1) : Int))) := by
  induction ps with
  | nil =>
    intro init
    simp only [List.foldl_nil, List.countP_nil, Nat.cast_zero, sub_zero]
    exact (List.map_id'' (fun p => rfl) init).symm
  | cons a rest ih =>
    intro init
    simp only [List.foldl_cons]
    rw [ih (decrementDate init a.date)]
    simp only [decrementDate, List.map_map]
    apply List.map_congr_left
    intro p _
    by_cases hpd : p.1 = a.date
    · simp only [Function.comp, if_pos hpd, List.countP_cons]
      have : (fun a_1 => a_1.date == p.1) a = true := by
        simp [hpd]
      simp only [this, if_pos]
      push_cast
      ring_nf
    · simp only [Function.comp, if_neg hpd, List.countP_cons]
      have : (fun a_1 => a_1.date == p.1) a = false := by
        simp
        intro hc
        exact absurd hc.symm hpd
      simp [this]

/-- Closed form of `_get_available_slots`: one entry per weekday of the
horizon, holding 3 minus the number of partial-schedule appointments on
that date, kept only when strictly positive. -/
lemma get_available_slots_eq (today : Nat) (ps : List Appointment) :
    _get_available_slots today ps =
      ((((List.range 31).map (fun x => today + x)).filter
          (fun d => decide (d % 7 < 5))).map
        (fun d => (d, 3 - (ps.countP (fun a => a.date == d) : Int)))).filter
        (fun p => decide ((0:Int) < p.2)) := by
  simp only [_get_available_slots]
  rw [foldl_decrement_eq]
  simp only [List.map_map]
  rfl

/-- What membership in the availability result implies: weekday key inside
the horizon, positive count, count at most 3, and the exact count value. -/
lemma mem_get_available_slots (today : Nat) (ps : List Appointment) (p : Nat × Int)
    (hp : p ∈ _get_available_slots today ps) :
    p.1 % 7 < 5 ∧ today ≤ p.1 ∧ p.1 ≤ today + 30 ∧ 0 < p.2 ∧ p.2 ≤ 3 ∧
    p.2 = 3 - (ps.countP (fun a => a.date == p.1) : Int) := by
  rw [get_available_slots_eq] at hp
  obtain ⟨hmem, hpos⟩ := List.mem_filter.mp hp
  obtain ⟨d, hd, rfl⟩ := List.mem_map.mp hmem
  obtain ⟨hdr, hwk⟩ := List.mem_filter.mp hd
  obtain ⟨x, hx, rfl⟩ := List.mem_map.mp hdr
  have hx31 := List.mem_range.mp hx
  have hcnt : (0:Int) ≤ (ps.countP (fun a => a.date == today + x) : Int) :=
    Int.natCast_nonneg _
  refine ⟨by simpa using hwk, by omega, by omega, by simpa using hpos, by omega, rfl⟩

/-- A successfully validated payload carries its stated `total_revenue`
into the result unchanged. -/
lemma parseScheduleOutput_statedTotal (j : Json) (o : ScheduleOutput)
    (h : parseScheduleOutput j = some o) :
    statedTotal j = some o.total_revenue := by
  simp only [parseScheduleOutput, Option.bind_eq_some] at h
  obtain ⟨fields, hobj, sj, hsj, sched, hsched, tr, htr, rtm, hrtm, an, han, hout⟩ := h
  have : ScheduleOutput.mk sched tr rtm an = o := by
    simpa using hout
  subst this
  obtain ⟨v, hv1, hv2⟩ := htr
  simp [statedTotal, hobj, hv1, hv2]

/-- The validator accepts the re-encoding of any record, whatever its cost
sign, weekday or duplication status. -/
lemma parse_encodeTreatment (r : ScheduledTreatment) :
    parseScheduledTreatment (encodeTreatment r) = some r := by
  simp [parseScheduledTreatment, encodeTreatment, Json.asObj, lookupField,
    Json.asDate, Json.asStr, Json.asInt, Json.asNum,
    Rat.den_natCast, Rat.num_natCast, Rat.den_intCast, Rat.num_intCast]

/-- Claim C1, counterexample: a structurally valid model reply stating
`total_revenue = 999` over a schedule whose costs sum to 100 is returned
to the caller unchanged, so the returned `total_revenue` does not equal
the sum of the `cost` fields: the pipeline does not recompute the total
from the retained records. -/
theorem claimC1_counterexample :
    (optimize_schedule respondC1 0 [] [] 1000 3).1 = AgentOutcome.output c1Out ∧
    c1Out.total_revenue ≠ (c1Out.schedule.map ScheduledTreatment.cost).sum :=
  ⟨by decide, by norm_num [c1Out]⟩

/-- Claim C1 (amended): for every result the response validation accepts,
the `total_revenue` field equals the total stated by the model in the raw
payload, taken over unchanged — it is not recomputed from the schedule
entries. -/
theorem claimC1 (j : Json) (o : ScheduleOutput)
    (h : parse_response j = Except.ok o) :
    statedTotal j = some o.total_revenue := by
  have h2 : parseScheduleOutput j = some o := by
    cases hp : parseScheduleOutput j with
    | none => simp [parse_response, hp] at h
    | some o2 =>
      simp only [parse_response, hp, Except.ok.injEq] at h
      rw [h]
  exact parseScheduleOutput_statedTotal j o h2

/-- Claim C1, witness: the amended statement at the concrete inconsistent
payload. -/
theorem claimC1_witness :
    parse_response c1Payload = Except.ok c1Out ∧
    statedTotal c1Payload = some (999 : ℚ) :=
  ⟨by decide, claimC1 c1Payload c1Out (by decide)⟩

/-- Claim C2, counterexample: a payload whose records carry a negative
cost, a weekend date (day 5, a Saturday) and a duplicate
(patient_id, date) pair passes response validation and is returned, not
rejected with a `DomainError`. -/
theorem claimC2_counterexample :
    parse_response c2Payload = Except.ok c2Out ∧
    c2Out.schedule.headI.cost < 0 ∧
    5 ≤ c2Out.schedule.headI.date % 7 ∧
    ¬ (c2Out.schedule.map (fun t => (t.patient_id, t.date))).Nodup :=
  ⟨by decide, by decide, by decide, by decide⟩

/-- Claim C2 (amended): response validation is purely structural — it
accepts the encoding of any two records whatever their cost sign, weekday
or mutual duplication, and returns them unchanged; no domain invariant is
checked and no `DomainError` exists in the code. -/
theorem claimC2 (r1 r2 : ScheduledTreatment) (tr : ℚ) (b : Bool) (a : String) :
    parse_response (encodeOutput ⟨[r1, r2], tr, b, a⟩) =
      Except.ok ⟨[r1, r2], tr, b, a⟩ := by
  simp [parse_response, parseScheduleOutput, encodeOutput, Json.asObj, lookupField,
    Json.asArr, Json.asNum, Json.asBool, Json.asStr,
    parseTreatments, parse_encodeTreatment]

/-- Claim C3, counterexample: with 120 treatment plans and a first attempt
that succeeds, the code issues exactly 1 completion call, not 3 — there is
no chunking. -/
theorem claimC3_counterexample :
    (optimize_schedule respondGood 0 [] plans120 50000 3).2.length = 1 ∧
    (optimize_schedule respondGood 0 [] plans120 50000 3).2.length ≠ 3 :=
  ⟨by decide, by decide⟩

/-- Claim C3 (amended): the orchestrator performs no chunking: for every
plan list (of any length), when the first attempt parses successfully it
issues exactly one completion call, whose prompt is the one built from the
complete treatment-plan list. -/
theorem claimC3 (respond : String → Nat → CompletionResult) (today : Nat)
    (ps : List Appointment) (plans : List TreatmentPlan)
    (target : ℚ) (m : Int) (h1 : 1 ≤ m)
    (h2 : ∀ p, (attemptStep (respond p 0)).isOk = true)
    (h3 : ∀ p ∈ plans, (TreatmentPlan.id p).isSome = true) :
    (optimize_schedule respond today ps plans target m).2.length = 1 ∧
    Except.ok ((optimize_schedule respond today ps plans target m).2.headI) =
      _create_prompt ps plans target (_get_available_slots today ps) := by
  obtain ⟨s, hs⟩ := create_prompt_ok ps plans target
    (_get_available_slots today ps) h3
  have heq : optimize_schedule respond today ps plans target m =
      optimizeLoop respond s m 0 m.toNat := by
    simp [optimize_schedule, hs]
  obtain ⟨k, hk⟩ : ∃ k, m.toNat = k + 1 := ⟨m.toNat - 1, by omega⟩
  obtain ⟨o, ho⟩ := (except_isOk_iff _).mp (h2 s)
  rw [heq, hk]
  simp [optimizeLoop, ho, hs]

/-- Claim C3, witness: the amended statement at 120 concrete plans. -/
theorem claimC3_witness :
    (1 : Int) ≤ 3 ∧
    ((optimize_schedule respondGood 0 [] plans120 50000 3).2.length = 1 ∧
    Except.ok ((optimize_schedule respondGood 0 [] plans120 50000 3).2.headI) =
      _create_prompt [] plans120 50000 (_get_available_slots 0 [])) :=
  ⟨by decide, claimC3 respondGood 0 [] plans120 50000 3 (by decide)
    (fun _ => rfl) (by decide)⟩

/-- Claim C4, counterexample: when every completion is unparsable the run
ends in the top-level `error` dictionary after all 3 attempts — it is not
reported as a degraded success (there are no chunks to degrade to). -/
theorem claimC4_counterexample :
    (optimize_schedule respondJunk 0 [] [] 1000 3).1.isErrorDict = true ∧
    (optimize_schedule respondJunk 0 [] [] 1000 3).2.length = 3 :=
  ⟨by decide, by decide⟩

/-- Claim C4 (amended): the whole request is one completion call, so when
the completion is unparsable on every attempt the caller receives the
top-level `error` dictionary after `max_retries` attempts, not a partial
success. -/
theorem claimC4 (respond : String → Nat → CompletionResult) (today : Nat)
    (ps : List Appointment) (plans : List TreatmentPlan)
    (target : ℚ) (m : Int) (h1 : 1 ≤ m)
    (h2 : ∀ p n, ∃ j, respond p n = CompletionResult.success j ∧
      (parse_response j).isOk = false)
    (h3 : ∀ p ∈ plans, (TreatmentPlan.id p).isSome = true) :
    (optimize_schedule respond today ps plans target m).1.isErrorDict = true ∧
    (optimize_schedule respond today ps plans target m).2.length = m.toNat := by
  obtain ⟨s, hs⟩ := create_prompt_ok ps plans target
    (_get_available_slots today ps) h3
  have heq : optimize_schedule respond today ps plans target m =
      optimizeLoop respond s m 0 m.toNat := by
    simp [optimize_schedule, hs]
  have hstep : ∀ n, (attemptStep (respond s n)).isOk = false := by
    intro n
    obtain ⟨j, hj, hjp⟩ := h2 s n
    simp [attemptStep, hj, hjp]
  have hmain := optimizeLoop_allError respond s m hstep m.toNat 0
    (by omega) (by omega)
  rw [heq]
  exact hmain

/-- Claim C4, witness: the amended statement at a concrete unparsable
client and 120 plans. -/
theorem claimC4_witness :
    (1 : Int) ≤ 2 ∧
    ((optimize_schedule respondJunk 0 [] plans120 50000 2).1.isErrorDict = true ∧
    (optimize_schedule respondJunk 0 [] plans120 50000 2).2.length = 2) :=
  ⟨by decide, claimC4 respondJunk 0 [] plans120 50000 2 (by decide)
    (fun _ _ => ⟨junkPayload, rfl, rfl⟩) (by decide)⟩

/-- Claim C5, counterexample: after a first call raising an auth-style
fatal error, the agent retries (a second completion call is made) and
returns that second result — it does not abort on the fatal error. -/
theorem claimC5_counterexample :
    (optimize_schedule respondFatalThenGood 0 [] [] 1000 3).2.length = 2 ∧
    (optimize_schedule respondFatalThenGood 0 [] [] 1000 3).1.isOutput = true :=
  ⟨by decide, by decide⟩

/-- Claim C5 (amended): the code does not distinguish fatal from transient
client errors: every exception is retried with the same prompt until
`max_retries` calls have been made, after which the `error` dictionary is
returned. -/
theorem claimC5 (respond : String → Nat → CompletionResult) (today : Nat)
    (ps : List Appointment) (plans : List TreatmentPlan)
    (target : ℚ) (m : Int) (h1 : 2 ≤ m)
    (h2 : ∀ p n, (respond p n).isFailure = true)
    (h3 : ∀ p ∈ plans, (TreatmentPlan.id p).isSome = true) :
    2 ≤ (optimize_schedule respond today ps plans target m).2.length ∧
    (optimize_schedule respond today ps plans target m).2.length = m.toNat ∧
    (optimize_schedule respond today ps plans target m).1.isErrorDict = true := by
  obtain ⟨s, hs⟩ := create_prompt_ok ps plans target
    (_get_available_slots today ps) h3
  have heq : optimize_schedule respond today ps plans target m =
      optimizeLoop respond s m 0 m.toNat := by
    simp [optimize_schedule, hs]
  have hstep : ∀ n, (attemptStep (respond s n)).isOk = false := by
    intro n
    have := h2 s n
    cases hr : respond s n with
    | success j => rw [hr] at this; simp [CompletionResult.isFailure] at this
    | failure msg => simp [attemptStep, hr, Except.isOk, Except.toBool]
  have hmain := optimizeLoop_allError respond s m hstep m.toNat 0
    (by omega) (by omega)
  rw [heq]
  exact ⟨by omega, hmain.2, hmain.1⟩

/-- Claim C5, witness: the amended statement at a client that always
raises the auth-style fatal error. -/
theorem claimC5_witness :
    (2 : Int) ≤ 2 ∧
    (2 ≤ (optimize_schedule respondRaise 0 [] [] 1000 2).2.length ∧
    (optimize_schedule respondRaise 0 [] [] 1000 2).2.length = 2 ∧
    (optimize_schedule respondRaise 0 [] [] 1000 2).1.isErrorDict = true) :=
  ⟨by decide, claimC5 respondRaise 0 [] [] 1000 2 (by decide)
    (fun _ _ => rfl) (by simp)⟩

/-- Claim C6: on every invocation the completion client is called at most
`max_retries` times, and every call passes the one prompt built before the
loop — retries never rebuild the prompt, so every attempt uses a prompt
identical to the first. -/
theorem claimC6 (respond : String → Nat → CompletionResult) (today : Nat)
    (ps : List Appointment) (plans : List TreatmentPlan)
    (target : ℚ) (m : Int) :
    (optimize_schedule respond today ps plans target m).2.length ≤ m.toNat ∧
    ∀ i : Fin (optimize_schedule respond today ps plans target m).2.length,
      Except.ok ((optimize_schedule respond today ps plans target m).2.get i) =
        _create_prompt ps plans target (_get_available_slots today ps) := by
  cases hcp : _create_prompt ps plans target (_get_available_slots today ps) with
  | error e =>
    have hlen : (optimize_schedule respond today ps plans target m).2.length = 0 := by
      simp [optimize_schedule, hcp]
    exact ⟨by omega, fun i => absurd i.isLt (by omega)⟩
  | ok p =>
    have heq : optimize_schedule respond today ps plans target m =
        optimizeLoop respond p m 0 m.toNat := by
      simp [optimize_schedule, hcp]
    have hall : ∀ c ∈ (optimize_schedule respond today ps plans target m).2,
        Except.ok c = _create_prompt ps plans target (_get_available_slots today ps) := by
      intro c hc
      rw [heq] at hc
      rw [optimizeLoop_calls_eq respond p m m.toNat 0 c hc, hcp]
    constructor
    · rw [heq]; exact optimizeLoop_length_le respond p m m.toNat 0
    · exact fun i => (hall _ (List.get_mem _ _ _)).trans hcp

/-- Claim C7: for every partial schedule, every entry of the available
slots mapping has a weekday key (Monday to Friday) within the 30-day
horizon from today and a remaining count strictly between 0 and 3
inclusive; with an empty partial schedule every date starts at the
per-day limit of 3. -/
theorem claimC7 (today : Nat) (ps : List Appointment) :
    (∀ i : Fin (_get_available_slots today ps).length,
      ((_get_available_slots today ps).get i).1 % 7 < 5 ∧
      today ≤ ((_get_available_slots today ps).get i).1 ∧
      ((_get_available_slots today ps).get i).1 ≤ today + 30 ∧
      0 < ((_get_available_slots today ps).get i).2 ∧
      ((_get_available_slots today ps).get i).2 ≤ 3) ∧
    (∀ j : Fin (_get_available_slots today []).length,
      ((_get_available_slots today []).get j).2 = 3) := by
  constructor
  · intro i
    have hm := mem_get_available_slots today ps _ (List.get_mem _ _ i.isLt)
    exact ⟨hm.1, hm.2.1, hm.2.2.1, hm.2.2.2.1, hm.2.2.2.2.1⟩
  · intro j
    have hm := mem_get_available_slots today [] _ (List.get_mem _ _ j.isLt)
    have := hm.2.2.2.2.2
    simpa using this

/-- Claim C8, counterexample: four appointments on the same Monday (one
more than its capacity of 3) raise no error at all — the computation
completes and the overbooked date is silently absent from the result
(22 weekday entries instead of the 23 of an empty schedule). -/
theorem claimC8_counterexample :
    List.lookup 0 (_get_available_slots 0 overbookedPS) = none ∧
    (_get_available_slots 0 overbookedPS).length = 22 ∧
    (_get_available_slots 0 []).length = 23 :=
  ⟨by decide, by decide, by decide⟩

/-- Claim C8 (amended): applying the partial schedule to the availability
map never fails: a date booked to or beyond its capacity of 3 is silently
dropped from the returned mapping (its count would be non-positive), with
no `OverbookingError` and no documentation of the drop. -/
theorem claimC8 (today : Nat) (ps : List Appointment) (d : Nat)
    (h : 3 ≤ ps.countP (fun a => a.date == d)) :
    (_get_available_slots today ps).all (fun p => p.1 != d) = true := by
  rw [List.all_eq_true]
  intro p hp
  have hm := mem_get_available_slots today ps p hp
  have hne : p.1 ≠ d := by
    intro heq
    have hpos := hm.2.2.2.1
    have hval := hm.2.2.2.2.2
    rw [heq] at hval
    omega
  simpa [bne_iff_ne] using hne

/-- Claim C8, witness: the amended statement at the concrete overbooked
Monday. -/
theorem claimC8_witness :
    3 ≤ overbookedPS.countP (fun a => a.date == 0) ∧
    (_get_available_slots 3 overbookedPS).all (fun p => p.1 != 0) = true :=
  ⟨by decide, claimC8 3 overbookedPS 0 (by decide)⟩

/-- Claim C9, counterexample: a single plan without an `id` key makes the
whole call raise `KeyError` out of prompt construction before any
completion call — building the prompt does not succeed. -/
theorem claimC9_counterexample :
    optimize_schedule respondRaise 0 [] [noIdPlan] 1000 3 =
      (AgentOutcome.raised "KeyError: id", []) := by decide

/-- Claim C9 (amended): prompt construction is not total over plans with
the id absent: whenever some plan lacks the `id` key, the unguarded
`plan["id"]` lookup raises `KeyError`, which propagates uncaught to the
caller with no completion call made. -/
theorem claimC9 (respond : String → Nat → CompletionResult) (today : Nat)
    (ps : List Appointment) (plans : List TreatmentPlan)
    (target : ℚ) (m : Int)
    (h : ∃ p ∈ plans, TreatmentPlan.id p = Option.none) :
    optimize_schedule respond today ps plans target m =
      (AgentOutcome.raised "KeyError: id", []) := by
  have hfmt := formatPlanLines_error plans h
  simp [optimize_schedule, _create_prompt, _format_treatment_plans, hfmt, Except.map]

/-- Claim C9, witness: the amended statement at the concrete id-less
plan. -/
theorem claimC9_witness :
    noIdPlan ∈ [noIdPlan] ∧ TreatmentPlan.id noIdPlan = Option.none ∧
    optimize_schedule respondRaise 5 [] [noIdPlan] 2000 1 =
      (AgentOutcome.raised "KeyError: id", []) :=
  ⟨by simp, rfl,
    claimC9 respondRaise 5 [] [noIdPlan] 2000 1 ⟨noIdPlan, by simp, rfl⟩⟩

/-- Claim C10, counterexample: with `max_retries = 0` but a plan missing
its `id` key, the call raises `KeyError` instead of returning `None`, so
the return-None behaviour is not universal over inputs. -/
theorem claimC10_counterexample :
    optimize_schedule respondRaise 0 [] [noIdPlan] 1000 0 =
      (AgentOutcome.raised "KeyError: id", []) ∧
    (AgentOutcome.raised "KeyError: id" : AgentOutcome) ≠ AgentOutcome.none :=
  ⟨by decide, by decide⟩

/-- Claim C10 (amended): when `max_retries ≤ 0` and every plan carries an
`id` key (so the pre-loop prompt construction does not raise), the
`range(max_retries)` loop body never executes and `optimize_schedule`
returns Python `None` — neither a schedule result nor an error
dictionary — with zero completion calls. -/
theorem claimC10 (respond : String → Nat → CompletionResult) (today : Nat)
    (ps : List Appointment) (plans : List TreatmentPlan)
    (target : ℚ) (m : Int) (h0 : m ≤ 0)
    (h : ∀ p ∈ plans, (TreatmentPlan.id p).isSome = true) :
    optimize_schedule respond today ps plans target m =
      (AgentOutcome.none, []) := by
  obtain ⟨s, hs⟩ := create_prompt_ok ps plans target
    (_get_available_slots today ps) h
  have hm : m.toNat = 0 := by omega
  simp [optimize_schedule, hs, hm, optimizeLoop]

/-- Claim C10, witness: the amended statement at a negative retry bound. -/
theorem claimC10_witness :
    ((-2 : Int) ≤ 0) ∧
    optimize_schedule respondRaise 0 [] [] 100 (-2) = (AgentOutcome.none, []) :=
  ⟨by decide, claimC10 respondRaise 0 [] [] 100 (-2) (by decide) (by simp)⟩
